import Mathlib

/-!
Shallow embedding of the FTP client in src/client.py (class FtpClient).

Replies read from the control socket, and the payloads drained from the
data socket, are supplied by an environment oracle (a function from a
read counter to the buffer returned by that read); buffers are modelled
as Lean strings, one Char per Python byte/character on the ASCII data
the protocol uses.  Socket objects themselves are abstracted away: the
state keeps the fields of the Python object that the code branches on
(host, user, the passive-connection flag, the negotiated port), a cursor
into each oracle, and a ghost trace of the wire-visible events, newest
first.  Outcomes of the two TCP connect calls, of the local file read in
store and of the local file write in retrieve are environmental and are
passed as explicit arguments.  Sends on the control socket are modelled
as succeeding (a send that hits the socket timeout raises SocketTimeout
after touching no session field, so no claim below depends on it).
-/

namespace FtpClient

/-- Model of Python bytes.startswith and str.startswith on ASCII data. -/
def pyStartsWith (s pre : String) : Bool :=
  pre.data.isPrefixOf s.data

/-- Model of Python str.split with a one-character separator, as used by
the code: split("|") in the EPSV reply parse and split(chr(34)) in pwd. -/
def pySplit (c : Char) : List Char → List (List Char)
  | [] => [[]]
  | x :: xs =>
    if x = c then [] :: pySplit c xs
    else
      match pySplit c xs with
      | [] => [[x]]
      | g :: gs => (x :: g) :: gs

/-- String-level wrapper of pySplit. -/
def pySplitStr (c : Char) (s : String) : List String :=
  (pySplit c s.data).map String.mk

/-- Model of a successful Python int() call on a field of the EPSV reply:
some value when the field is a nonempty all-digit string, none when int()
would raise ValueError.  (Python int() also tolerates surrounding
whitespace and a sign; the fields the code parses are plain digit runs,
and the claims only depend on the failure cases modelled here.) -/
def pyInt? (l : List Char) : Option Nat :=
  match l with
  | [] => none
  | _ =>
    l.foldl (fun acc c =>
      acc.bind (fun n =>
        if ('0' ≤ c ∧ c ≤ '9') then some (10 * n + (c.toNat - '0'.toNat))
        else none)) (some 0)

/-- The parse performed by _open_data_connection on the EPSV reply:
int(data.decode().split(chr(124))[3]).  Returns none exactly when the
Python expression raises (IndexError from the subscript, ValueError from
int()). -/
def epsvPort (s : String) : Option Nat :=
  ((pySplitStr '|' s)[3]?).bind (fun f => pyInt? f.data)

/-- The parse performed by pwd on the PWD reply:
data.decode().split(chr(34))[1].  Returns none exactly when the subscript
raises IndexError (fewer than two quote-separated segments). -/
def pwdExtract (s : String) : Option String :=
  (pySplitStr '"' s)[1]?

/-- Model of the replace of the literal backslash-r-backslash-n sequence
(four characters in the Python source) by a newline, applied to drained
LIST data. -/
def listClean : List Char → List Char
  | '\\' :: 'r' :: '\\' :: 'n' :: rest => '\n' :: listClean rest
  | c :: rest => c :: listClean rest
  | [] => []

/-- String-level wrapper of listClean. -/
def listCleanStr (s : String) : String :=
  ⟨listClean s.data⟩

/-- The status-code constants of the nested Status class. -/
def LOGIN_SUCCESS : String := "230"

/-- Status code 530. -/
def LOGIN_FAIL : String := "530"

/-- Status code 550. -/
def FILE_NOT_FOUND : String := "550"

/-- Wire-visible events, recorded newest first in the ghost trace:
a command line written to the control socket, a read of the control
socket, the passive data socket connecting, a full drain of the data
socket, a write of the data payload, and _close_data_connection. -/
inductive Ev
  | cmd (line : String)
  | recv
  | openData (port : Nat)
  | drain
  | writeData
  | closeData
deriving DecidableEq

/-- The exception kinds the execution of a client method can surface.
The first six are the exception classes the code defines.  pyError
models any other uncaught Python exception (IndexError, ValueError,
OSError from a socket call, ...); the code defines no
ClosedDataConnection class. -/
inductive Err
  | UnknownHost
  | NotConnected
  | NotAuthenticated
  | ConnectionRefused
  | SocketTimeout
  | LocalIOError
  | pyError (what : String)
deriving DecidableEq

/-- The value a public method hands back to its caller: raw reply bytes,
a derived string, or Python None for methods without a return statement. -/
inductive Ret
  | bytes (b : String)
  | str (t : String)
  | noneV
deriving DecidableEq

/-- Environmental outcome of a socket connect call: success, a
name-resolution failure (socket.gaierror), an actively refused
connection (errno ECONNREFUSED), or any other socket.error (which the
except clause in the code silently swallows). -/
inductive ConnOutcome
  | ok
  | gaierror
  | econnrefused
  | otherError
deriving DecidableEq

/-- The session fields of the FtpClient object plus oracle cursors and
the ghost event trace. -/
structure St where
  host : Option String
  user : Option String
  dataOpen : Bool
  dataPort : Option Nat
  rix : Nat
  dix : Nat
  trace : List Ev
deriving DecidableEq

/-- The environment oracle: replies n is the buffer returned by the
n-th read of the control socket, dataBytes n the payload drained by the
n-th full read of a data socket. -/
structure Env where
  replies : Nat → String
  dataBytes : Nat → String

/-- Result of running a method: the Python return value or the raised
exception, together with the final object state (mutations made before
a raise persist, as they do on the Python object). -/
abbrev Res (α : Type) := Except Err α × St

/-- The state of a freshly constructed FtpClient (init calls
_reset_sockets, leaving host and user unset and no data connection). -/
def initState : St :=
  { host := none, user := none, dataOpen := false, dataPort := none,
    rix := 0, dix := 0, trace := [] }

/-- _reset_sockets: fresh command and data sockets, host and user
cleared.  _reset_data_socket leaves the passive flag false; the
negotiated port field is cleared with the data socket. -/
def resetSockets (s : St) : St :=
  { s with host := none, user := none, dataOpen := false, dataPort := none }

/-- _send_command: joins the keyword and arguments with single spaces
and writes the line to the control socket. -/
def sendCommand (c : String) (args : List String) (s : St) : St :=
  let line := args.foldl (fun acc a => acc ++ " " ++ a) c
  { s with trace := Ev.cmd line :: s.trace }

/-- _receive_command_data: one bounded read of the control socket,
returned verbatim. -/
def receiveCommandData (env : Env) (s : St) : String × St :=
  (env.replies s.rix, { s with rix := s.rix + 1, trace := Ev.recv :: s.trace })

/-- _read_from_data_connection: drains the data socket to end of
stream and returns the concatenation. -/
def readFromDataConnection (env : Env) (s : St) : String × St :=
  (env.dataBytes s.dix, { s with dix := s.dix + 1, trace := Ev.drain :: s.trace })

/-- _write_to_data_connection: no check of the passive flag is made (the
TODO in the code); sendall on a data socket that was never connected
raises an OS-level error (ENOTCONN), modelled as pyError.  On an open
channel the full payload is written and the raw socket is closed by the
sender, the passive flag staying true until _close_data_connection. -/
def writeToDataConnection (_data : String) (s : St) : Except Err Unit × St :=
  if s.dataOpen then
    (Except.ok (), { s with trace := Ev.writeData :: s.trace })
  else
    (Except.error (Err.pyError "ENOTCONN"), s)

/-- _close_data_connection: closes the data socket, clears the passive
flag, reallocates a fresh data socket and clears the port. -/
def closeDataConnection (s : St) : St :=
  { s with dataOpen := false, dataPort := none, trace := Ev.closeData :: s.trace }

/-- _open_data_connection: connectivity and authentication checks, a
no-op when the channel is already open, otherwise EPSV negotiation, the
port parse, and the data socket connect with its failure handling (a
swallowed other socket.error still falls through to marking the channel
connected). -/
def openDataConnection (env : Env) (out : ConnOutcome) (s : St) :
    Except Err Unit × St :=
  if s.host.isNone then (Except.error Err.NotConnected, s)
  else if s.user.isNone then (Except.error Err.NotAuthenticated, s)
  else if s.dataOpen then (Except.ok (), s)
  else
    let s1 := sendCommand "EPSV" [] s
    let (data, s2) := receiveCommandData env s1
    match epsvPort data with
    | none => (Except.error (Err.pyError "IndexError-or-ValueError"), s2)
    | some p =>
      let s3 := { s2 with dataPort := some p }
      match out with
      | ConnOutcome.gaierror => (Except.error Err.UnknownHost, resetSockets s3)
      | ConnOutcome.econnrefused => (Except.error Err.ConnectionRefused, s3)
      | ConnOutcome.ok =>
        (Except.ok (), { s3 with dataOpen := true, trace := Ev.openData p :: s3.trace })
      | ConnOutcome.otherError =>
        (Except.ok (), { s3 with dataOpen := true })

/-- connect: resets first when already connected, then attempts the
control connect; on success records the host; gaierror resets and
raises UnknownHost; ECONNREFUSED raises ConnectionRefused; any other
socket.error is swallowed (the host is then not recorded); finally the
greeting is read and returned. -/
def connect (env : Env) (out : ConnOutcome) (h : String) (s : St) : Res Ret :=
  let s0 := if s.host.isSome then resetSockets s else s
  match out with
  | ConnOutcome.gaierror => (Except.error Err.UnknownHost, resetSockets s0)
  | ConnOutcome.econnrefused => (Except.error Err.ConnectionRefused, s0)
  | ConnOutcome.ok =>
    let s1 := { s0 with host := some h }
    let (data, s2) := receiveCommandData env s1
    (Except.ok (Ret.bytes data), s2)
  | ConnOutcome.otherError =>
    let (data, s2) := receiveCommandData env s0
    (Except.ok (Ret.bytes data), s2)

/-- disconnect: the connectivity check, then the line
if self underscore is underscore authenticated() - a call that raises
NotAuthenticated when user is unset and returns Python None (falsy)
otherwise, so the logout branch is never taken - then QUIT, the reply
read, the full reset, and the reply returned. -/
def disconnect (env : Env) (s : St) : Res Ret :=
  if s.host.isNone then (Except.error Err.NotConnected, s)
  else if s.user.isNone then (Except.error Err.NotAuthenticated, s)
  else
    let s1 := sendCommand "QUIT" [] s
    let (data, s2) := receiveCommandData env s1
    (Except.ok (Ret.bytes data), resetSockets s2)

/-- login: connectivity check, USER sent and its reply discarded, PASS
sent and its reply inspected: user is set on a 230 prefix, cleared on a
530 prefix, untouched otherwise; the final reply is returned. -/
def login (env : Env) (u p : String) (s : St) : Res Ret :=
  if s.host.isNone then (Except.error Err.NotConnected, s)
  else
    let s1 := sendCommand "USER" [u] s
    let (_, s2) := receiveCommandData env s1
    let s3 := sendCommand "PASS" [p] s2
    let (data, s4) := receiveCommandData env s3
    let s5 :=
      if pyStartsWith data LOGIN_SUCCESS then { s4 with user := some u }
      else if pyStartsWith data LOGIN_FAIL then { s4 with user := none }
      else s4
    (Except.ok (Ret.bytes data), s5)

/-- logout: both checks, then user is cleared locally; no wire exchange
and no return statement. -/
def logout (s : St) : Res Ret :=
  if s.host.isNone then (Except.error Err.NotConnected, s)
  else if s.user.isNone then (Except.error Err.NotAuthenticated, s)
  else (Except.ok Ret.noneV, { s with user := none })

/-- list: both checks, the data-connection context, LIST with the
optional path, the control reply; unless the reply carries the 550
prefix the data channel is drained, cleaned and concatenated with a
second control reply; the context close runs on the normal exits. -/
def list (env : Env) (out : ConnOutcome) (filename : Option String) (s : St) :
    Res Ret :=
  if s.host.isNone then (Except.error Err.NotConnected, s)
  else if s.user.isNone then (Except.error Err.NotAuthenticated, s)
  else
    match openDataConnection env out s with
    | (Except.error e, s1) => (Except.error e, s1)
    | (Except.ok _, s1) =>
      let s2 :=
        match filename with
        | some f => sendCommand "LIST" [f] s1
        | none => sendCommand "LIST" [] s1
      let (data, s3) := receiveCommandData env s2
      if pyStartsWith data FILE_NOT_FOUND then
        (Except.ok (Ret.bytes data), closeDataConnection s3)
      else
        let (raw, s4) := readFromDataConnection env s3
        let (d2, s5) := receiveCommandData env s4
        (Except.ok (Ret.bytes (data ++ listCleanStr raw ++ d2)),
         closeDataConnection s5)

/-- pwd: both checks, the data-connection context (opened but never
used), PWD, and the quoted-segment subscript on the decoded reply; when
the subscript raises, the exception propagates out of the context body
and the generator-based context manager, having no try/finally, skips
the close. -/
def pwd (env : Env) (out : ConnOutcome) (s : St) : Res Ret :=
  if s.host.isNone then (Except.error Err.NotConnected, s)
  else if s.user.isNone then (Except.error Err.NotAuthenticated, s)
  else
    match openDataConnection env out s with
    | (Except.error e, s1) => (Except.error e, s1)
    | (Except.ok _, s1) =>
      let s2 := sendCommand "PWD" [] s1
      let (data, s3) := receiveCommandData env s2
      match pwdExtract data with
      | none => (Except.error (Err.pyError "IndexError"), s3)
      | some pth => (Except.ok (Ret.str pth), closeDataConnection s3)

/-- Shared shape of cwd, cdup, mkd, dele and rmd: both checks, one
command, one reply, the reply returned. -/
def simpleCommand (env : Env) (c : String) (args : List String) (s : St) :
    Res Ret :=
  if s.host.isNone then (Except.error Err.NotConnected, s)
  else if s.user.isNone then (Except.error Err.NotAuthenticated, s)
  else
    let s1 := sendCommand c args s
    let (data, s2) := receiveCommandData env s1
    (Except.ok (Ret.bytes data), s2)

/-- cwd. -/
def cwd (env : Env) (directory : String) (s : St) : Res Ret :=
  simpleCommand env "CWD" [directory] s

/-- cdup. -/
def cdup (env : Env) (s : St) : Res Ret :=
  simpleCommand env "CDUP" [] s

/-- mkd. -/
def mkd (env : Env) (directory : String) (s : St) : Res Ret :=
  simpleCommand env "MKD" [directory] s

/-- dele. -/
def dele (env : Env) (filename : String) (s : St) : Res Ret :=
  simpleCommand env "DELE" [filename] s

/-- rm: calls dele and discards its value; no return statement. -/
def rm (env : Env) (filename : String) (s : St) : Res Ret :=
  match dele env filename s with
  | (Except.error e, s1) => (Except.error e, s1)
  | (Except.ok _, s1) => (Except.ok Ret.noneV, s1)

/-- rmd. -/
def rmd (env : Env) (directory : String) (s : St) : Res Ret :=
  simpleCommand env "RMD" [directory] s

/-- rmdir: calls rmd and discards its value; no return statement. -/
def rmdir (env : Env) (directory : String) (s : St) : Res Ret :=
  match rmd env directory s with
  | (Except.error e, s1) => (Except.error e, s1)
  | (Except.ok _, s1) => (Except.ok Ret.noneV, s1)

/-- rename: both checks, RNFR with its reply; unless that reply carries
the 550 prefix, RNTO is sent and its reply discarded; no return
statement on either path. -/
def rename (env : Env) (oldName newName : String) (s : St) : Res Ret :=
  if s.host.isNone then (Except.error Err.NotConnected, s)
  else if s.user.isNone then (Except.error Err.NotAuthenticated, s)
  else
    let s1 := sendCommand "RNFR" [oldName] s
    let (data, s2) := receiveCommandData env s1
    if pyStartsWith data FILE_NOT_FOUND then
      (Except.ok Ret.noneV, s2)
    else
      let s3 := sendCommand "RNTO" [newName] s2
      let (_, s4) := receiveCommandData env s3
      (Except.ok Ret.noneV, s4)

/-- retrieve: both checks, the data-connection context, RETR, the
control reply; unless the reply carries the 550 prefix the data channel
is drained and the bytes written to the local path (writeOk is the
outcome of that local write; IOError becomes LocalIOError, which
propagates out of the context body, so the generator-based context
manager skips the close).  No return statement. -/
def retrieve (env : Env) (out : ConnOutcome) (writeOk : Bool)
    (filename : String) (_localFilename : Option String) (s : St) : Res Ret :=
  if s.host.isNone then (Except.error Err.NotConnected, s)
  else if s.user.isNone then (Except.error Err.NotAuthenticated, s)
  else
    match openDataConnection env out s with
    | (Except.error e, s1) => (Except.error e, s1)
    | (Except.ok _, s1) =>
      let s2 := sendCommand "RETR" [filename] s1
      let (data, s3) := receiveCommandData env s2
      if pyStartsWith data FILE_NOT_FOUND then
        (Except.ok Ret.noneV, closeDataConnection s3)
      else
        let (_, s4) := readFromDataConnection env s3
        if writeOk then (Except.ok Ret.noneV, closeDataConnection s4)
        else (Except.error Err.LocalIOError, s4)

/-- store: both checks, the data-connection context, then the local
file read (readOk its outcome; IOError becomes LocalIOError and the
close is skipped); on success STOR, a control reply, the data write,
a second control reply, and the close.  No return statement. -/
def store (env : Env) (out : ConnOutcome) (readOk : Bool)
    (content : String) (localFilename : String) (filename : Option String)
    (s : St) : Res Ret :=
  if s.host.isNone then (Except.error Err.NotConnected, s)
  else if s.user.isNone then (Except.error Err.NotAuthenticated, s)
  else
    match openDataConnection env out s with
    | (Except.error e, s1) => (Except.error e, s1)
    | (Except.ok _, s1) =>
      if readOk then
        let s2 := sendCommand "STOR" [filename.getD localFilename] s1
        let (_, s3) := receiveCommandData env s2
        match writeToDataConnection content s3 with
        | (Except.error _, s4) => (Except.error Err.LocalIOError, s4)
        | (Except.ok _, s4) =>
          let (_, s5) := receiveCommandData env s4
          (Except.ok Ret.noneV, closeDataConnection s5)
      else
        (Except.error Err.LocalIOError, s1)

/-- One public method invocation together with its environmental
outcomes, for reasoning about arbitrary call sequences. -/
inductive Op
  | connectOp (out : ConnOutcome) (h : String)
  | loginOp (u p : String)
  | logoutOp
  | disconnectOp
  | listOp (out : ConnOutcome) (filename : Option String)
  | pwdOp (out : ConnOutcome)
  | cwdOp (d : String)
  | cdupOp
  | mkdOp (d : String)
  | deleOp (f : String)
  | rmOp (f : String)
  | rmdOp (d : String)
  | rmdirOp (d : String)
  | renameOp (a b : String)
  | retrieveOp (out : ConnOutcome) (writeOk : Bool) (f : String)
      (l : Option String)
  | storeOp (out : ConnOutcome) (readOk : Bool) (content l : String)
      (f : Option String)
deriving DecidableEq

/-- Dispatch one public method invocation. -/
def step (env : Env) (op : Op) (s : St) : Res Ret :=
  match op with
  | Op.connectOp out h => connect env out h s
  | Op.loginOp u p => login env u p s
  | Op.logoutOp => logout s
  | Op.disconnectOp => disconnect env s
  | Op.listOp out f => list env out f s
  | Op.pwdOp out => pwd env out s
  | Op.cwdOp d => cwd env d s
  | Op.cdupOp => cdup env s
  | Op.mkdOp d => mkd env d s
  | Op.deleOp f => dele env f s
  | Op.rmOp f => rm env f s
  | Op.rmdOp d => rmd env d s
  | Op.rmdirOp d => rmdir env d s
  | Op.renameOp a b => rename env a b s
  | Op.retrieveOp out w f l => retrieve env out w f l s
  | Op.storeOp out r c l f => store env out r c l f s

/-- Run a sequence of public method invocations, keeping the state a
raising call leaves behind (exceptions propagate to the driving caller,
who may keep using the same object). -/
def run (env : Env) : List Op → St → St
  | [], s => s
  | op :: rest, s => run env rest (step env op s).2

/-- True of the invocations that call the authentication check as a
gate: every public method but connect, login and disconnect (disconnect
reaches the authentication checker too, but through the broken truthiness
test, not as a spec-mandated gate). -/
def requiresAuth : Op → Bool
  | Op.connectOp _ _ => false
  | Op.loginOp _ _ => false
  | Op.disconnectOp => false
  | _ => true

/-- True exactly of connect invocations. -/
def isConnectCall : Op → Bool
  | Op.connectOp _ _ => true
  | _ => false

/-! Concrete fixtures used by counterexamples and witnesses. -/

/-- An environment whose every control reply is a generic success. -/
def env0 : Env := { replies := fun _ => "200 ok", dataBytes := fun _ => "" }

/-- A connected but unauthenticated session with an empty trace. -/
def stConn : St := { initState with host := some "h" }

/-- A connected and authenticated session with an empty trace. -/
def stAuth : St := { initState with host := some "h", user := some "u" }

/-- Environment for a RETR transfer the server grants: reply 0 answers
EPSV with a parseable port, reply 1 acknowledges RETR. -/
def env4 : Env :=
  { replies := fun n => if n = 0 then "229 |||5000|" else "150 ok",
    dataBytes := fun _ => "payload" }

/-! Theorems settling the claims. -/

/-- C1: the spec says disconnect requires only the Connected state, doing
logout first when authenticated.  In the code the authentication checker
raises NotAuthenticated when user is unset and returns Python None
otherwise, so its use as the condition of the logout branch makes
disconnect on a connected, unauthenticated session raise before any wire
traffic (and makes the logout branch dead code).  This theorem evaluates
disconnect at that failing input: the call raises NotAuthenticated, the
state is untouched and no command line (in particular no QUIT) was
sent. -/
theorem disconnect_unauthenticated_raises :
    disconnect env0 stConn = (Except.error Err.NotAuthenticated, stConn)
    ∧ ∀ line : String, Ev.cmd line ∉ (disconnect env0 stConn).2.trace := by
  refine ⟨rfl, ?_⟩
  intro line
  simp [disconnect, stConn, initState]

/-- C3: the spec says a write on a data channel that was never opened
fails with ClosedDataConnection.  The code performs no such check (the
TODO in the source) and defines no ClosedDataConnection exception class
at all: sendall on the never-connected data socket raises an OS-level
ENOTCONN error, which is none of the exception kinds the client
defines. -/
theorem write_unopened_channel_oserror (d : String) (s : St)
    (hd : s.dataOpen = false) :
    writeToDataConnection d s = (Except.error (Err.pyError "ENOTCONN"), s) := by
  simp [writeToDataConnection, hd]

/-- C3 witness: the failing write evaluated on a connected,
authenticated session whose data channel was never opened. -/
theorem write_unopened_channel_oserror_witness :
    writeToDataConnection "x" stAuth
      = (Except.error (Err.pyError "ENOTCONN"), stAuth) :=
  write_unopened_channel_oserror "x" stAuth rfl

/-- C4: the spec says the data channel is closed on every exit path of a
data-bearing operation, including the branches that raise.  The
generator-based context manager in the code has no try/finally, so an
exception thrown out of the with body skips the close.  Evaluated here:
a retrieve whose server grants the transfer but whose local write raises
IOError ends with LocalIOError raised, the data channel still flagged
open and no close event on the trace. -/
theorem retrieve_localioerror_leaves_channel_open :
    (retrieve env4 ConnOutcome.ok false "f.txt" none stAuth).1
      = Except.error Err.LocalIOError
    ∧ (retrieve env4 ConnOutcome.ok false "f.txt" none stAuth).2.dataOpen = true
    ∧ Ev.closeData ∉ (retrieve env4 ConnOutcome.ok false "f.txt" none stAuth).2.trace :=
  ⟨rfl, by decide, by decide⟩

/-- C2 counterexample: the claim says every successful rename call
returns the final Reply.  Evaluated on a connected, authenticated
session with a server that grants both RNFR and RNTO, rename succeeds
and returns Python None, which is not reply bytes. -/
theorem rename_returns_none_cex :
    (rename env0 "a.txt" "b.txt" stAuth).1 = Except.ok Ret.noneV
    ∧ ∀ b : String, Ret.noneV ≠ Ret.bytes b :=
  ⟨rfl, fun _ h => Ret.noConfusion h⟩

/-- C2 amended: on every successful call, rename, retrieve and store
return nothing (Python None, since the methods have no return
statement), and rm and rmdir likewise return None; pwd returns the
derived path string, while list, cwd, cdup, mkd, dele, rmd, login,
connect and disconnect return the raw reply bytes. -/
theorem operation_return_shapes :
    (∀ (env : Env) (a b : String) (s : St) (r : Ret),
        (rename env a b s).1 = Except.ok r → r = Ret.noneV)
    ∧ (∀ (env : Env) (out : ConnOutcome) (w : Bool) (f : String)
          (l : Option String) (s : St) (r : Ret),
        (retrieve env out w f l s).1 = Except.ok r → r = Ret.noneV)
    ∧ (∀ (env : Env) (out : ConnOutcome) (rk : Bool) (c l : String)
          (f : Option String) (s : St) (r : Ret),
        (store env out rk c l f s).1 = Except.ok r → r = Ret.noneV)
    ∧ (∀ (env : Env) (out : ConnOutcome) (s : St) (r : Ret),
        (pwd env out s).1 = Except.ok r → ∃ t, r = Ret.str t)
    ∧ (∀ (env : Env) (out : ConnOutcome) (f : Option String) (s : St) (r : Ret),
        (list env out f s).1 = Except.ok r → ∃ b, r = Ret.bytes b)
    ∧ (∀ (env : Env) (d : String) (s : St) (r : Ret),
        (cwd env d s).1 = Except.ok r → ∃ b, r = Ret.bytes b)
    ∧ (∀ (env : Env) (s : St) (r : Ret),
        (cdup env s).1 = Except.ok r → ∃ b, r = Ret.bytes b)
    ∧ (∀ (env : Env) (d : String) (s : St) (r : Ret),
        (mkd env d s).1 = Except.ok r → ∃ b, r = Ret.bytes b)
    ∧ (∀ (env : Env) (f : String) (s : St) (r : Ret),
        (dele env f s).1 = Except.ok r → ∃ b, r = Ret.bytes b)
    ∧ (∀ (env : Env) (d : String) (s : St) (r : Ret),
        (rmd env d s).1 = Except.ok r → ∃ b, r = Ret.bytes b)
    ∧ (∀ (env : Env) (u p : String) (s : St) (r : Ret),
        (login env u p s).1 = Except.ok r → ∃ b, r = Ret.bytes b)
    ∧ (∀ (env : Env) (out : ConnOutcome) (h : String) (s : St) (r : Ret),
        (connect env out h s).1 = Except.ok r → ∃ b, r = Ret.bytes b)
    ∧ (∀ (env : Env) (s : St) (r : Ret),
        (disconnect env s).1 = Except.ok r → ∃ b, r = Ret.bytes b)
    ∧ (∀ (env : Env) (f : String) (s : St) (r : Ret),
        (rm env f s).1 = Except.ok r → r = Ret.noneV)
    ∧ (∀ (env : Env) (d : String) (s : St) (r : Ret),
        (rmdir env d s).1 = Except.ok r → r = Ret.noneV) := by
  refine ⟨?_, ?_, ?_, ?_, ?_, ?_, ?_, ?_, ?_, ?_, ?_, ?_, ?_, ?_, ?_⟩
  · intro env a b s r h
    unfold rename at h
    dsimp only at h
    repeat' split at h
    all_goals simp_all
  · intro env out w f l s r h
    unfold retrieve at h
    dsimp only at h
    repeat' split at h
    all_goals simp_all
  · intro env out rk c l f s r h
    unfold store at h
    dsimp only at h
    repeat' split at h
    all_goals simp_all
  · intro env out s r h
    unfold pwd at h
    dsimp only at h
    repeat' split at h
    all_goals (try simp_all)
    all_goals exact ⟨_, h.symm⟩
  · intro env out f s r h
    unfold list at h
    dsimp only at h
    repeat' split at h
    all_goals (try simp_all)
    all_goals exact ⟨_, h.symm⟩
  · intro env d s r h
    unfold cwd simpleCommand at h
    dsimp only at h
    repeat' split at h
    all_goals (try simp_all)
    all_goals exact ⟨_, h.symm⟩
  · intro env s r h
    unfold cdup simpleCommand at h
    dsimp only at h
    repeat' split at h
    all_goals (try simp_all)
    all_goals exact ⟨_, h.symm⟩
  · intro env d s r h
    unfold mkd simpleCommand at h
    dsimp only at h
    repeat' split at h
    all_goals (try simp_all)
    all_goals exact ⟨_, h.symm⟩
  · intro env f s r h
    unfold dele simpleCommand at h
    dsimp only at h
    repeat' split at h
    all_goals (try simp_all)
    all_goals exact ⟨_, h.symm⟩
  · intro env d s r h
    unfold rmd simpleCommand at h
    dsimp only at h
    repeat' split at h
    all_goals (try simp_all)
    all_goals exact ⟨_, h.symm⟩
  · intro env u p s r h
    unfold login at h
    dsimp only at h
    repeat' split at h
    all_goals (try simp_all)
    all_goals exact ⟨_, h.symm⟩
  · intro env out hst s r h
    unfold connect at h
    dsimp only at h
    repeat' split at h
    all_goals (try simp_all)
    all_goals exact ⟨_, h.symm⟩
  · intro env s r h
    unfold disconnect at h
    dsimp only at h
    repeat' split at h
    all_goals (try simp_all)
    all_goals exact ⟨_, h.symm⟩
  · intro env f s r h
    unfold rm at h
    repeat' split at h
    all_goals simp_all
  · intro env d s r h
    unfold rmdir at h
    repeat' split at h
    all_goals simp_all

/-- C2 amended witness: the rename conjunct applied at a concrete
successful call. -/
theorem operation_return_shapes_witness :
    (rename env0 "a.txt" "b.txt" stAuth).1 = Except.ok Ret.noneV
    ∧ Ret.noneV = Ret.noneV :=
  ⟨rfl, operation_return_shapes.1 env0 "a.txt" "b.txt" stAuth Ret.noneV rfl⟩

/-- Environment whose PWD reply carries no pair of double quotes (the
EPSV reply itself is well formed, so the failure isolated is the quoted
path subscript). -/
def env5 : Env :=
  { replies := fun n => if n = 0 then "229 |||5000|" else "257 no quotes here",
    dataBytes := fun _ => "" }

/-- C5 counterexample: the claim says the structured extractions complete
without raising on every raw reply buffer.  On a buffer with no pair of
double quotes the quoted-path subscript raises IndexError (the model
returns none), on a buffer with no pipe-delimited numeric fourth field
the passive-port parse raises (none), and a pwd call whose PWD reply has
no quotes propagates the uncaught IndexError. -/
theorem malformed_reply_extraction_cex :
    pwdExtract "257 no quotes here" = none
    ∧ epsvPort "500 unrecognized" = none
    ∧ (pwd env5 ConnOutcome.ok stAuth).1 = Except.error (Err.pyError "IndexError") :=
  ⟨by decide, by decide, rfl⟩

/-- C5 amended: the status-prefix comparisons are total and never raise,
but the structured extractions raise on buffers lacking the expected
shape.  For a connected, authenticated session whose data channel is
closed and whose EPSV reply parses: pwd returns the extracted segment
when the PWD reply splits into at least two quote-separated segments and
propagates an uncaught IndexError otherwise; and when the EPSV reply
itself has no parseable fourth pipe-field, opening the data connection
propagates an uncaught IndexError or ValueError.  The final conjunct
characterises exactly when the quoted-path subscript raises. -/
theorem extraction_requires_shape (env : Env) (s : St) (hstr u : String)
    (p : Nat) (hh : s.host = some hstr) (hu : s.user = some u)
    (hd : s.dataOpen = false) (hp : epsvPort (env.replies s.rix) = some p) :
    (∀ t, pwdExtract (env.replies (s.rix + 1)) = some t →
        (pwd env ConnOutcome.ok s).1 = Except.ok (Ret.str t))
    ∧ (pwdExtract (env.replies (s.rix + 1)) = none →
        (pwd env ConnOutcome.ok s).1 = Except.error (Err.pyError "IndexError"))
    ∧ (∀ env2 : Env, epsvPort (env2.replies s.rix) = none →
        (openDataConnection env2 ConnOutcome.ok s).1
          = Except.error (Err.pyError "IndexError-or-ValueError"))
    ∧ (∀ t : String, (pwdExtract t).isSome ↔ 2 ≤ (pySplitStr '"' t).length) := by
  refine ⟨?_, ?_, ?_, ?_⟩
  · intro t ht
    simp [pwd, openDataConnection, sendCommand, receiveCommandData, hh, hu, hd, hp, ht]
  · intro ht
    simp [pwd, openDataConnection, sendCommand, receiveCommandData, hh, hu, hd, hp, ht]
  · intro env2 h2
    simp [openDataConnection, sendCommand, receiveCommandData, hh, hu, hd, h2]
  · intro t
    unfold pwdExtract
    cases hl : pySplitStr '"' t with
    | nil => simp
    | cons a rest =>
      cases rest with
      | nil => simp
      | cons b rest2 => simp

/-- Environment whose PWD reply carries a quoted path. -/
def env5q : Env :=
  { replies := fun n => if n = 0 then "229 |||5000|" else "257 \"/home\" is cwd",
    dataBytes := fun _ => "" }

/-- C5 amended witness: a well-shaped PWD reply extracted through the
theorem at a concrete environment. -/
theorem extraction_requires_shape_witness :
    (pwd env5q ConnOutcome.ok stAuth).1 = Except.ok (Ret.str "/home") :=
  (extraction_requires_shape env5q stAuth "h" "u" 5000 rfl rfl rfl
    (by decide)).1 "/home" (by decide)

/-- Helper: with host unset, every invocation but connect fails with
NotConnected and leaves the state, trace included, untouched. -/
theorem notConnected_gate (env : Env) (op : Op) (s : St)
    (hop : isConnectCall op = false) (hh : s.host = none) :
    step env op s = (Except.error Err.NotConnected, s) := by
  cases op <;>
    simp_all [step, isConnectCall, login, logout, disconnect, list, pwd, cwd,
      cdup, mkd, dele, rm, rmd, rmdir, rename, retrieve, store, simpleCommand]

/-- Helper: with host set and user unset, every invocation that gates on
authentication fails with NotAuthenticated and leaves the state, trace
included, untouched. -/
theorem notAuthenticated_gate (env : Env) (op : Op) (s : St) (h : String)
    (hop : requiresAuth op = true) (hh : s.host = some h) (hu : s.user = none) :
    step env op s = (Except.error Err.NotAuthenticated, s) := by
  cases op <;>
    simp_all [step, requiresAuth, logout, list, pwd, cwd, cdup, mkd, dele, rm,
      rmd, rmdir, rename, retrieve, store, simpleCommand]

/-- C8: for every public operation other than connect, an unset host
makes the operation fail with NotConnected, and for every operation that
requires authentication, a set host with an unset user makes it fail
with NotAuthenticated; in both cases the returned state equals the input
state (the checks are pure and no wire traffic occurs), and the
connectivity check fires first (the first conjunct applies even when the
user is also unset). -/
theorem precondition_gating :
    (∀ (env : Env) (op : Op) (s : St), isConnectCall op = false →
        s.host = none → step env op s = (Except.error Err.NotConnected, s))
    ∧ (∀ (env : Env) (op : Op) (s : St) (h : String), requiresAuth op = true →
        s.host = some h → s.user = none →
        step env op s = (Except.error Err.NotAuthenticated, s)) :=
  ⟨fun env op s hop hh => notConnected_gate env op s hop hh,
   fun env op s h hop hh hu => notAuthenticated_gate env op s h hop hh hu⟩

/-- C8 witness: logout on a fresh client fails with NotConnected, and
list on a connected but unauthenticated session fails with
NotAuthenticated, both leaving the state untouched. -/
theorem precondition_gating_witness :
    step env0 Op.logoutOp initState = (Except.error Err.NotConnected, initState)
    ∧ step env0 (Op.listOp ConnOutcome.ok none) stConn
        = (Except.error Err.NotAuthenticated, stConn) :=
  ⟨precondition_gating.1 env0 Op.logoutOp initState rfl rfl,
   precondition_gating.2 env0 (Op.listOp ConnOutcome.ok none) stConn "h" rfl rfl rfl⟩

/-- C7: on a connected session, login sends USER (reply discarded) then
PASS, returns the PASS reply, keeps host, and updates user by exactly
the 230 or 530 prefix of that final reply; after a 530 reply every
operation that gates on authentication fails with NotAuthenticated. -/
theorem login_behaviour (env : Env) (u p hstr : String) (s : St)
    (hh : s.host = some hstr) :
    (login env u p s).1 = Except.ok (Ret.bytes (env.replies (s.rix + 1)))
    ∧ (login env u p s).2.trace
        = Ev.recv :: Ev.cmd ("PASS " ++ p) :: Ev.recv :: Ev.cmd ("USER " ++ u)
            :: s.trace
    ∧ (login env u p s).2.host = s.host
    ∧ (login env u p s).2.user
        = (if pyStartsWith (env.replies (s.rix + 1)) LOGIN_SUCCESS = true then some u
           else if pyStartsWith (env.replies (s.rix + 1)) LOGIN_FAIL = true then none
           else s.user)
    ∧ (pyStartsWith (env.replies (s.rix + 1)) LOGIN_SUCCESS = false →
       pyStartsWith (env.replies (s.rix + 1)) LOGIN_FAIL = true →
       ∀ (env2 : Env) (op : Op), requiresAuth op = true →
         step env2 op (login env u p s).2
           = (Except.error Err.NotAuthenticated, (login env u p s).2)) := by
  refine ⟨?_, ?_, ?_, ?_, ?_⟩
  · simp [login, sendCommand, receiveCommandData, hh]
  · simp [login, sendCommand, receiveCommandData, hh]
    (repeat' split) <;> rfl
  · simp [login, sendCommand, receiveCommandData, hh]
    (repeat' split) <;> rfl
  · by_cases h1 : pyStartsWith (env.replies (s.rix + 1)) LOGIN_SUCCESS = true
    · simp [login, sendCommand, receiveCommandData, hh, h1]
    · by_cases h2 : pyStartsWith (env.replies (s.rix + 1)) LOGIN_FAIL = true
      · simp [login, sendCommand, receiveCommandData, hh, h1, h2]
      · simp [login, sendCommand, receiveCommandData, hh, h1, h2]
  · intro hsucc hfail env2 op hop
    have hhost : (login env u p s).2.host = some hstr := by
      simp [login, sendCommand, receiveCommandData, hh, hsucc, hfail]
    have huser : (login env u p s).2.user = none := by
      simp [login, sendCommand, receiveCommandData, hh, hsucc, hfail]
    exact notAuthenticated_gate env2 op _ hstr hop hhost huser

/-- Environment answering every read with an authentication failure. -/
def envFail : Env :=
  { replies := fun _ => "530 Login incorrect", dataBytes := fun _ => "" }

/-- C7 witness: a failed login on a connected session returns the 530
reply and a following authenticated operation fails with
NotAuthenticated. -/
theorem login_behaviour_witness :
    (login envFail "dlpuser" "wrongpass" stConn).1
      = Except.ok (Ret.bytes "530 Login incorrect")
    ∧ step env0 (Op.listOp ConnOutcome.ok none)
          (login envFail "dlpuser" "wrongpass" stConn).2
        = (Except.error Err.NotAuthenticated,
           (login envFail "dlpuser" "wrongpass" stConn).2) :=
  ⟨(login_behaviour envFail "dlpuser" "wrongpass" "h" stConn rfl).1,
   (login_behaviour envFail "dlpuser" "wrongpass" "h" stConn rfl).2.2.2.2
     (by decide) (by decide) env0 (Op.listOp ConnOutcome.ok none) rfl⟩

/-- C10: when the PASS reply begins with neither the 230 nor the 530
prefix, login leaves the user field unchanged, so a previously
authenticated session stays authenticated. -/
theorem login_other_reply_frames_user (env : Env) (u p hstr : String)
    (s : St) (hh : s.host = some hstr)
    (h230 : pyStartsWith (env.replies (s.rix + 1)) LOGIN_SUCCESS = false)
    (h530 : pyStartsWith (env.replies (s.rix + 1)) LOGIN_FAIL = false) :
    (login env u p s).2.user = s.user := by
  simp [login, sendCommand, receiveCommandData, hh, h230, h530]

/-- Environment answering every read with an intermediate 331 reply. -/
def env331 : Env :=
  { replies := fun _ => "331 need password", dataBytes := fun _ => "" }

/-- A session already authenticated as alice. -/
def stAlice : St := { initState with host := some "h", user := some "alice" }

/-- C10 witness: a login attempt answered 331 on a session
authenticated as alice leaves alice logged in. -/
theorem login_other_reply_frames_user_witness :
    (login env331 "bob" "pw" stAlice).2.user = some "alice" :=
  login_other_reply_frames_user env331 "bob" "pw" "h" stAlice rfl
    (by decide) (by decide)

/-- Helper: an RNTO command line is never equal to an RNFR command
line, whatever the arguments. -/
theorem rnto_ne_rnfr (n a : String) : ("RNTO " ++ n) ≠ ("RNFR " ++ a) := by
  intro hcontra
  have h2 := congrArg String.data hcontra
  simp [String.data_append] at h2

/-- C6: on a connected, authenticated session whose data channel is
closed, when the reply to the initiating command carries the 550 prefix:
a list call sends no drain but still closes the data channel; a
retrieve call sends no drain and no data write but still closes the
channel; and a rename call sends exactly RNFR and reads one reply, with
no RNTO command among its new events. -/
theorem status550_shortcircuit (env : Env) (s : St) (hstr u : String)
    (p : Nat) (hh : s.host = some hstr) (hu : s.user = some u)
    (hd : s.dataOpen = false)
    (hp : epsvPort (env.replies s.rix) = some p)
    (h550a : pyStartsWith (env.replies (s.rix + 1)) FILE_NOT_FOUND = true)
    (h550b : pyStartsWith (env.replies s.rix) FILE_NOT_FOUND = true) :
    (∀ f : Option String, ∃ pfx : List Ev,
        (list env ConnOutcome.ok f s).2.trace = pfx ++ s.trace
        ∧ Ev.drain ∉ pfx ∧ Ev.closeData ∈ pfx
        ∧ (list env ConnOutcome.ok f s).2.dataOpen = false)
    ∧ (∀ (r : String) (l : Option String) (w : Bool), ∃ pfx : List Ev,
        (retrieve env ConnOutcome.ok w r l s).2.trace = pfx ++ s.trace
        ∧ Ev.drain ∉ pfx ∧ Ev.writeData ∉ pfx ∧ Ev.closeData ∈ pfx
        ∧ (retrieve env ConnOutcome.ok w r l s).2.dataOpen = false)
    ∧ (∀ a b : String,
        (rename env a b s).2.trace
            = Ev.recv :: Ev.cmd ("RNFR " ++ a) :: s.trace
        ∧ ∀ n : String,
            Ev.cmd ("RNTO " ++ n)
              ∉ ([Ev.recv, Ev.cmd ("RNFR " ++ a)] : List Ev)) := by
  refine ⟨?_, ?_, ?_⟩
  · intro f
    cases f with
    | none =>
      refine ⟨[Ev.closeData, Ev.recv, Ev.cmd "LIST", Ev.openData p, Ev.recv,
        Ev.cmd "EPSV"], ?_, ?_, ?_, ?_⟩ <;>
        simp [list, openDataConnection, sendCommand, receiveCommandData,
          closeDataConnection, hh, hu, hd, hp, h550a]
    | some x =>
      refine ⟨[Ev.closeData, Ev.recv, Ev.cmd ("LIST " ++ x), Ev.openData p,
        Ev.recv, Ev.cmd "EPSV"], ?_, ?_, ?_, ?_⟩ <;>
        simp [list, openDataConnection, sendCommand, receiveCommandData,
          closeDataConnection, hh, hu, hd, hp, h550a]
  · intro r l w
    refine ⟨[Ev.closeData, Ev.recv, Ev.cmd ("RETR " ++ r), Ev.openData p,
      Ev.recv, Ev.cmd "EPSV"], ?_, ?_, ?_, ?_, ?_⟩ <;>
      simp [retrieve, openDataConnection, sendCommand, receiveCommandData,
        closeDataConnection, hh, hu, hd, hp, h550a]
  · intro a b
    refine ⟨?_, ?_⟩
    · simp [rename, sendCommand, receiveCommandData, hh, hu, h550b]
    · intro n
      simp [rnto_ne_rnfr n a]

/-- Environment for the C6 witness: the first reply both parses as an
EPSV answer and carries the 550 prefix, the second carries the 550
prefix. -/
def env6 : Env :=
  { replies := fun n => if n = 0 then "550 |||5000|" else "550 no",
    dataBytes := fun _ => "" }

/-- C6 witness: the rename and list conjuncts instantiated at a
concrete environment whose replies carry the 550 prefix. -/
theorem status550_shortcircuit_witness :
    (rename env6 "x" "y" stAuth).2.trace = [Ev.recv, Ev.cmd "RNFR x"]
    ∧ (list env6 ConnOutcome.ok none stAuth).2.dataOpen = false :=
  ⟨((status550_shortcircuit env6 stAuth "h" "u" 5000 rfl rfl rfl (by decide)
      (by decide) (by decide)).2.2 "x" "y").1,
   ((status550_shortcircuit env6 stAuth "h" "u" 5000 rfl rfl rfl (by decide)
      (by decide) (by decide)).1 none).choose_spec.2.2.2⟩

/-- Helper predicate: the step from s to t either left host and user
unchanged, or cleared both (a reset), or left the host set - the three
shapes every method invocation realises on the session fields. -/
def hostUserOk (s t : St) : Prop :=
  (t.host = s.host ∧ t.user = s.user) ∨ (t.host = none ∧ t.user = none)
  ∨ t.host.isSome = true

/-- Helper: a list call realises one of the three session shapes. -/
theorem list_hostUser (env : Env) (out : ConnOutcome) (f : Option String)
    (s : St) : hostUserOk s (list env out f s).2 := by
  by_cases hh : s.host.isNone = true <;>
  by_cases hu : s.user.isNone = true <;>
  by_cases hd : s.dataOpen = true <;>
    rcases hq : epsvPort (env.replies s.rix) with _ | p <;>
    cases out <;>
    simp only [list, openDataConnection, sendCommand, receiveCommandData,
      readFromDataConnection, closeDataConnection, resetSockets, hh, hu, hd, hq,
      hostUserOk, if_true, if_false, Bool.false_eq_true, ite_false, ite_true] <;>
    (repeat' split) <;>
    simp_all [Option.isSome_iff_ne_none, Option.isNone_iff_eq_none]

/-- Helper: a pwd call realises one of the three session shapes. -/
theorem pwd_hostUser (env : Env) (out : ConnOutcome) (s : St) :
    hostUserOk s (pwd env out s).2 := by
  by_cases hh : s.host.isNone = true <;>
  by_cases hu : s.user.isNone = true <;>
  by_cases hd : s.dataOpen = true <;>
    rcases hq : epsvPort (env.replies s.rix) with _ | p <;>
    cases out <;>
    simp only [pwd, openDataConnection, sendCommand, receiveCommandData,
      closeDataConnection, resetSockets, hh, hu, hd, hq,
      hostUserOk, if_true, if_false, Bool.false_eq_true, ite_false, ite_true] <;>
    (repeat' split) <;>
    simp_all [Option.isSome_iff_ne_none, Option.isNone_iff_eq_none]

/-- Helper: a retrieve call realises one of the three session shapes. -/
theorem retrieve_hostUser (env : Env) (out : ConnOutcome) (w : Bool)
    (f : String) (l : Option String) (s : St) :
    hostUserOk s (retrieve env out w f l s).2 := by
  by_cases hh : s.host.isNone = true <;>
  by_cases hu : s.user.isNone = true <;>
  by_cases hd : s.dataOpen = true <;>
    rcases hq : epsvPort (env.replies s.rix) with _ | p <;>
    cases out <;>
    simp only [retrieve, openDataConnection, sendCommand, receiveCommandData,
      readFromDataConnection, closeDataConnection, resetSockets, hh, hu, hd, hq,
      hostUserOk, if_true, if_false, Bool.false_eq_true, ite_false, ite_true] <;>
    (repeat' split) <;>
    subst_vars <;>
    simp_all [Option.isSome_iff_ne_none, Option.isNone_iff_eq_none]

/-- Helper: a store call realises one of the three session shapes. -/
theorem store_hostUser (env : Env) (out : ConnOutcome) (rk : Bool)
    (c l : String) (f : Option String) (s : St) :
    hostUserOk s (store env out rk c l f s).2 := by
  by_cases hh : s.host.isNone = true <;>
  by_cases hu : s.user.isNone = true <;>
  by_cases hd : s.dataOpen = true <;>
    rcases hq : epsvPort (env.replies s.rix) with _ | p <;>
    cases out <;>
    simp only [store, openDataConnection, sendCommand, receiveCommandData,
      writeToDataConnection, closeDataConnection, resetSockets, hh, hu, hd, hq,
      hostUserOk, if_true, if_false, Bool.false_eq_true, ite_false, ite_true] <;>
    (repeat' split) <;>
    subst_vars <;>
    simp_all [Option.isSome_iff_ne_none, Option.isNone_iff_eq_none]

/-- Helper: every method invocation realises one of the three session
shapes of hostUserOk. -/
theorem step_hostUserOk (env : Env) (op : Op) (s : St) :
    hostUserOk s (step env op s).2 := by
  cases op with
  | listOp out f => exact list_hostUser env out f s
  | pwdOp out => exact pwd_hostUser env out s
  | retrieveOp out w f l => exact retrieve_hostUser env out w f l s
  | storeOp out rk c l f => exact store_hostUser env out rk c l f s
  | connectOp out h =>
    cases out <;>
      simp only [step, connect, receiveCommandData, resetSockets,
        hostUserOk] <;>
      (repeat' split) <;> simp_all [Option.isSome_iff_ne_none]
  | rmOp f =>
    by_cases hh : s.host.isNone = true <;> by_cases hu : s.user.isNone = true <;>
      simp_all [step, rm, dele, simpleCommand, sendCommand, receiveCommandData,
        hostUserOk, Option.isSome_iff_ne_none, Option.isNone_iff_eq_none]
  | rmdirOp d =>
    by_cases hh : s.host.isNone = true <;> by_cases hu : s.user.isNone = true <;>
      simp_all [step, rmdir, rmd, simpleCommand, sendCommand,
        receiveCommandData, hostUserOk, Option.isSome_iff_ne_none,
        Option.isNone_iff_eq_none]
  | _ =>
    simp only [step, login, logout, disconnect, cwd, cdup, mkd, dele, rmd,
      rename, simpleCommand, sendCommand, receiveCommandData, resetSockets,
      hostUserOk]
    (repeat' split) <;> simp_all [Option.isSome_iff_ne_none]

/-- Helper: the invariant that user is set only if host is set is
preserved along any run. -/
theorem run_inv (env : Env) (ops : List Op) :
    ∀ s : St, (s.host = none → s.user = none) →
      ((run env ops s).host = none → (run env ops s).user = none) := by
  induction ops with
  | nil => intro s hs; simpa [run] using hs
  | cons op rest ih =>
    intro s hs
    have hok := step_hostUserOk env op s
    have hstep : (step env op s).2.host = none → (step env op s).2.user = none := by
      rcases hok with ⟨h1, h2⟩ | ⟨h1, h2⟩ | h1
      · intro hn; rw [h2]; exact hs (h1 ▸ hn)
      · intro _; exact h2
      · intro hn; rw [hn] at h1; simp at h1
    simpa [run] using ih (step env op s).2 hstep

/-- C9: in every client state reachable by any sequence of public
method invocations from a freshly constructed client, the user field is
set only if the host field is set. -/
theorem session_invariant (env : Env) (ops : List Op) :
    (run env ops initState).host = none → (run env ops initState).user = none :=
  run_inv env ops initState (fun _ => rfl)

/-- C9 witness: the invariant instantiated on the empty run, whose
final host is unset. -/
theorem session_invariant_witness :
    (run env0 [] initState).user = none :=
  session_invariant env0 [] rfl

end FtpClient
